import Mathlib

/-!
Verification of the grasp-stability tracker and polling loop of
`dora_arm_franka/main.py`.

The Python module polls a robot arm over HTTP, runs a debounce state
machine on the gripper distance, and republishes a combined telemetry
vector.  We embed the module shallowly: Python floats become `ℚ`
(all the comparisons at stake are exact on the inputs we use), the
mutable `grasp_state` dict becomes the structure `GraspState`, Python
exceptions become `Option`/`Except` (with `none` / `.error` marking an
exception that escapes the code under scrutiny), and the event loop
becomes a recursion over a list of events.
-/

namespace DoraArmFranka

/-! ### Configuration constants (main.py lines 10-13) -/

def max_gripper_distance : ℚ := 83 / 100

def max_gripper_catch_distance : ℚ := 7 / 10

def min_gripper_distance : ℚ := 2 / 100

def GRASP_STABLE_DURATION : ℚ := 8 / 10

/-! ### Grasp tracking state (main.py lines 60-64)

The Python code keeps a dict `grasp_state` with keys `in_range`,
`enter_time` and `is_stable_grasp`. -/

structure GraspState where
  in_range : Bool
  enter_time : Option ℚ
  is_stable_grasp : Bool
deriving DecidableEq, Repr

/-- The initial `grasp_state` dict: all fields false / None. -/
def initGraspState : GraspState :=
  { in_range := false, enter_time := none, is_stable_grasp := false }

/-- One execution of the state-update block (main.py lines 76-94) for a
fetched gripper distance `cur_gripper` at wall-clock time `current_time`.
`none` models the `TypeError` Python would raise computing
`current_time - grasp_state["enter_time"]` when `enter_time` is `None`
(unreachable from states satisfying the invariant). -/
def updateGrasp (s : GraspState) (cur_gripper current_time : ℚ) :
    Option GraspState :=
  let cur_in_range : Bool :=
    decide (min_gripper_distance < cur_gripper) &&
    decide (cur_gripper < max_gripper_catch_distance)
  if cur_in_range then
    if !s.in_range then
      some { in_range := true, enter_time := some current_time,
             is_stable_grasp := false }
    else
      match s.enter_time with
      | none => none
      | some et =>
        let duration := current_time - et
        if GRASP_STABLE_DURATION ≤ duration then
          some { s with is_stable_grasp := true }
        else
          some s
  else
    some { in_range := false, enter_time := none, is_stable_grasp := false }

/-- The flag sent on the wire: `1 if grasp_state["is_stable_grasp"] else 0`
(main.py line 97). -/
def stableFlag (s : GraspState) : ℚ :=
  if s.is_stable_grasp then 1 else 0

/-- Run `updateGrasp` over a list of `(distance, time)` samples, collecting
the stable flag emitted after each update. -/
def runUpdates (s : GraspState) :
    List (ℚ × ℚ) → Option (GraspState × List ℚ)
  | [] => some (s, [])
  | (d, t) :: rest =>
    match updateGrasp s d t with
    | none => none
    | some s1 =>
      match runUpdates s1 rest with
      | none => none
      | some (sf, flags) => some (sf, stableFlag s1 :: flags)

/-- The stable flags produced by a sequence of samples. -/
def runFlags (s : GraspState) (samples : List (ℚ × ℚ)) : Option (List ℚ) :=
  (runUpdates s samples).map Prod.snd

/-! ### Telemetry fetch (main.py lines 15-48)

Each `requests.post` call either raises a `RequestException`
(timeout / connection error) or yields a response with a status code and
a JSON body.  We record, for each endpoint, only the part of the body the
code reads: the value under the expected key (`"q"`, `"gripper"`,
`"pose"`), `none` when that key is missing. -/

inductive HttpResult (α : Type) where
  | exn : HttpResult α
  | resp (status : Nat) (body : Option α) : HttpResult α
deriving DecidableEq

/-- The three remote calls issued by one `get_arm_data` invocation. -/
structure RemoteEnv where
  joint : HttpResult (List ℚ)
  gripper : HttpResult ℚ
  pose : HttpResult (List ℚ)
deriving DecidableEq

/-- Python exceptions that can cross `get_arm_data`'s boundary. -/
inductive PyExc where
  | reqExn
  | keyError
  | indexError
deriving DecidableEq

/-- One `requests.post` call followed by
`if resp.status_code == 200: x = resp.json()["key"]` — used for the
joint (`"q"`, line 27-29) and gripper (`"gripper"`, line 32-34) calls.
A non-200 response leaves the field unset; a 200 response whose JSON
lacks the key raises `KeyError`, which the surrounding `try` block (it
catches only `RequestException`) does not stop. -/
def fetchField {α : Type} (r : HttpResult α) : Except PyExc (Option α) :=
  match r with
  | .exn => .error .reqExn
  | .resp status body =>
    if status = 200 then
      match body with
      | some v => .ok (some v)
      | none => .error .keyError
    else .ok none

/-- The pose call (lines 37-40): on a 200 response the code builds
`[pose[0], pose[1], pose[2], pose[3], pose[4], pose[5]]`, raising
`IndexError` if the list is shorter than 6. -/
def fetchPose (r : HttpResult (List ℚ)) : Except PyExc (Option (List ℚ)) :=
  match r with
  | .exn => .error .reqExn
  | .resp status body =>
    if status = 200 then
      match body with
      | some p =>
        if 6 ≤ p.length then .ok (some (p.take 6)) else .error .indexError
      | none => .error .keyError
    else .ok none

/-- The `arm_data` dict built by `get_arm_data` (lines 17-22, 42-43). -/
structure ArmData where
  jointstate : Option (List ℚ)
  gripper_raw : Option ℚ
  pose : Option (List ℚ)
  success : Bool
deriving DecidableEq

/-- `get_arm_data` (main.py lines 15-48).  The three calls run in order
inside one `try` block; `except requests.exceptions.RequestException`
returns the partially filled dict (its `success` still `False`).  A
`KeyError` or `IndexError` is not caught and escapes, modelled by `none`.
`success` is set to `True` exactly when `jointstate`, `gripper_raw` and
`pose` are all present (line 42-43). -/
def get_arm_data (env : RemoteEnv) : Option ArmData :=
  let a0 : ArmData :=
    { jointstate := none, gripper_raw := none, pose := none,
      success := false }
  match fetchField env.joint with
  | .error .reqExn => some a0
  | .error _ => none
  | .ok js =>
    let a1 := { a0 with jointstate := js }
    match fetchField env.gripper with
    | .error .reqExn => some a1
    | .error _ => none
    | .ok g =>
      let a2 := { a1 with gripper_raw := g }
      match fetchPose env.pose with
      | .error .reqExn => some a2
      | .error _ => none
      | .ok p =>
        let a3 := { a2 with pose := p }
        if js.isSome && g.isSome && p.isSome then
          some { a3 with success := true }
        else
          some a3

/-- A call whose 200-responses always carry the expected JSON field, so
reading it cannot raise `KeyError`. -/
def fieldIntact {α : Type} : HttpResult α → Bool
  | .exn => true
  | .resp status body => if status = 200 then body.isSome else true

/-- A pose call whose 200-responses carry a `"pose"` list of at least 6
entries, so reading it cannot raise `KeyError` or `IndexError`. -/
def poseIntact : HttpResult (List ℚ) → Bool
  | .exn => true
  | .resp status body =>
    if status = 200 then
      match body with
      | some p => decide (6 ≤ p.length)
      | none => false
    else true

/-- A transient failure in the sense of the error taxonomy: the call
raises (timeout / connection error) or answers with a non-200 status. -/
def transientFail {α : Type} : HttpResult α → Bool
  | .exn => true
  | .resp status _ => status != 200

/-! ### Tick orchestration and event loop (main.py lines 52-113) -/

/-- The element type of the wire payload (`pa.float32()`, line 107). -/
inductive DType where
  | float32
deriving DecidableEq

/-- One `node.send_output` call (lines 105-109): channel name, flat data
vector, element encoding and the nanosecond timestamp from
`time.time_ns()`. -/
structure OutputMsg where
  channel : String
  data : List ℚ
  dtype : DType
  timestamp_ns : ℕ
deriving DecidableEq

/-- The body of the `tick` branch after `get_arm_data` returned (lines
71-110): when `success` is set, read `gripper_raw` (a missing key would
be a `KeyError`), run the state update, assemble
`jointstate + [distance, flag] + pose` (a `None` operand of `+` would be
a `TypeError`) and emit it; when `success` is unset, do nothing.
`none` models an escaping exception.  Results pair the new tracker state
with the emitted message, if any. -/
def processTick (s : GraspState) (a : ArmData) (current_time : ℚ)
    (tns : ℕ) : Option (GraspState × Option OutputMsg) :=
  if a.success then
    match a.gripper_raw with
    | none => none
    | some cur_gripper =>
      match updateGrasp s cur_gripper current_time with
      | none => none
      | some s1 =>
        match a.jointstate, a.pose with
        | some js, some p =>
          some (s1, some
            { channel := "jointstate",
              data := js ++ [cur_gripper, stableFlag s1] ++ p,
              dtype := DType.float32,
              timestamp_ns := tns })
        | _, _ => none
  else
    some (s, none)

/-- Events delivered to the `for event in node` loop.  A `tick` input
carries the remote responses this tick's `get_arm_data` will see plus the
values `time.time()` and `time.time_ns()` return during its handling;
`stop` is the `INPUT` event with id `"stop"`; `other` stands for any
event the two `if` branches ignore. -/
inductive Event where
  | tick (env : RemoteEnv) (current_time : ℚ) (tns : ℕ)
  | stop
  | other
deriving DecidableEq

/-- The event loop (lines 69-113), started from tracker state `s`:
processes events in order, collecting every emitted message.  The `stop`
branch only prints (line 112-113) — it does not leave the loop.  `none`
models an exception escaping the loop. -/
def mainLoop (s : GraspState) :
    List Event → Option (GraspState × List OutputMsg)
  | [] => some (s, [])
  | Event.tick env current_time tns :: rest =>
    match get_arm_data env with
    | none => none
    | some a =>
      match processTick s a current_time tns with
      | none => none
      | some (s1, out) =>
        match mainLoop s1 rest with
        | none => none
        | some (sf, outs) => some (sf, out.toList ++ outs)
  | Event.stop :: rest => mainLoop s rest
  | Event.other :: rest => mainLoop s rest

/-! ### Specification-side definitions for the claims -/

/-- Specification-side description of the flags of a contiguous in-range
run that entered the band at `et` with stability bit `b`: each tick's
flag is 1 exactly when the bit was already set or this tick's elapsed
time `t - et` has reached `GRASP_STABLE_DURATION`, and the bit latches. -/
def flagsFrom (b : Bool) (et : ℚ) : List (ℚ × ℚ) → List ℚ
  | [] => []
  | (_, t) :: rest =>
    let b1 := b || decide (GRASP_STABLE_DURATION ≤ t - et)
    (if b1 then (1 : ℚ) else 0) :: flagsFrom b1 et rest

/-- The GraspState invariants of the data model: `enter_time` is present
iff `in_range`, and `is_stable_grasp` implies `in_range`. -/
def graspInv (s : GraspState) : Prop :=
  s.enter_time.isSome = s.in_range ∧
  (s.is_stable_grasp = true → s.in_range = true)

/-! ### Helper lemmas -/

/-- One in-band update from a state already in range keeps `in_range`
and `enter_time`, and ors the elapsed-time test into `is_stable_grasp`. -/
theorem updateGrasp_inRange (s : GraspState) (et d t : ℚ)
    (h1 : s.in_range = true) (h2 : s.enter_time = some et)
    (hlo : min_gripper_distance < d) (hhi : d < max_gripper_catch_distance) :
    updateGrasp s d t = some
      { in_range := true, enter_time := some et,
        is_stable_grasp :=
          s.is_stable_grasp || decide (GRASP_STABLE_DURATION ≤ t - et) } := by
  obtain ⟨ir, et0, st⟩ := s
  simp only at h1 h2
  subst h1; subst h2
  simp only [updateGrasp, decide_eq_true hlo, decide_eq_true hhi,
    Bool.and_self, if_true, Bool.not_true, Bool.false_eq_true, if_false]
  split
  · next hdur => simp [decide_eq_true hdur]
  · next hdur => simp [decide_eq_false hdur]

/-- Running a list of in-band samples from a state already in range
produces exactly the flags of `flagsFrom`, and leaves the run (its
`enter_time` in particular) intact. -/
theorem runUpdates_inRange (et : ℚ) :
    ∀ (samples : List (ℚ × ℚ)) (s : GraspState),
      s.in_range = true → s.enter_time = some et →
      (∀ pr ∈ samples,
        min_gripper_distance < pr.1 ∧ pr.1 < max_gripper_catch_distance) →
      ∃ sf, runUpdates s samples =
          some (sf, flagsFrom s.is_stable_grasp et samples) ∧
        sf.in_range = true ∧ sf.enter_time = some et
  | [], s, h1, h2, _ => ⟨s, by simp [runUpdates, flagsFrom], h1, h2⟩
  | (d, t) :: rest, s, h1, h2, hband => by
    obtain ⟨hd, hrest⟩ : (min_gripper_distance < d ∧
        d < max_gripper_catch_distance) ∧ ∀ pr ∈ rest,
        min_gripper_distance < pr.1 ∧ pr.1 < max_gripper_catch_distance := by
      constructor
      · exact hband (d, t) (List.mem_cons_self _ _)
      · exact fun pr hpr => hband pr (List.mem_cons_of_mem _ hpr)
    have hstep := updateGrasp_inRange s et d t h1 h2 hd.1 hd.2
    obtain ⟨sf, hrun, hf1, hf2⟩ := runUpdates_inRange et rest
      { in_range := true, enter_time := some et,
        is_stable_grasp :=
          s.is_stable_grasp || decide (GRASP_STABLE_DURATION ≤ t - et) }
      rfl rfl hrest
    refine ⟨sf, ?_, hf1, hf2⟩
    simp only [runUpdates, hstep, hrun, flagsFrom, stableFlag]

/-! ### The claims -/

/-- C1: within one contiguous in-range run, on every update call where
the state was already in range, the tracker sets `is_stable_grasp`
exactly when `now - enter_time ≥ GRASP_STABLE_DURATION`: the emitted
flags are those of `flagsFrom`, so the flag becomes 1 at the first tick
whose elapsed time reaches the threshold and latches at 1 for every
later in-band tick of the run. -/
theorem C1_stable_flag_monotone_run (s : GraspState) (et : ℚ)
    (samples : List (ℚ × ℚ))
    (h1 : s.in_range = true) (h2 : s.enter_time = some et)
    (hband : ∀ pr ∈ samples,
      min_gripper_distance < pr.1 ∧ pr.1 < max_gripper_catch_distance) :
    runFlags s samples = some (flagsFrom s.is_stable_grasp et samples) := by
  obtain ⟨sf, hrun, -, -⟩ := runUpdates_inRange et samples s h1 h2 hband
  simp [runFlags, hrun]

/-- Witness for C1: a run entered at time 0, sampled at 0.3, 0.9 and
1.2 seconds with distance 0.5, reports flags 0, 1, 1. -/
theorem C1_stable_flag_monotone_run_witness :
    runFlags ⟨true, some 0, false⟩ [(0.5, 0.3), (0.5, 0.9), (0.5, 1.2)] =
      some [0, 1, 1] :=
  (C1_stable_flag_monotone_run ⟨true, some 0, false⟩ 0
    [(0.5, 0.3), (0.5, 0.9), (0.5, 1.2)] rfl rfl (by decide!)).trans
    (by decide!)

/-- C2: any distance at or below `min_gripper_distance` or at or above
`max_gripper_catch_distance` (boundaries included, since the in-range
test is strict on both sides) resets the state unconditionally —
`in_range` false, `enter_time` `None`, `is_stable_grasp` false — and the
flag sent for that tick is 0. -/
theorem C2_out_of_range_resets (s : GraspState) (d now : ℚ)
    (h : d ≤ min_gripper_distance ∨ max_gripper_catch_distance ≤ d) :
    updateGrasp s d now = some
      { in_range := false, enter_time := none, is_stable_grasp := false } ∧
    stableFlag
      { in_range := false, enter_time := none, is_stable_grasp := false }
      = 0 := by
  have hfalse : (decide (min_gripper_distance < d) &&
      decide (d < max_gripper_catch_distance)) = false := by
    rcases h with h | h
    · have : ¬ min_gripper_distance < d := not_lt.mpr h
      simp [this]
    · have : ¬ d < max_gripper_catch_distance := not_lt.mpr h
      simp [this]
  constructor
  · simp [updateGrasp, hfalse]
  · simp [stableFlag]

/-- Witness for C2: the exact lower boundary 0.02, hitting a state that
was stable, is classified out of range and fully resets the tracker. -/
theorem C2_out_of_range_resets_witness :
    updateGrasp ⟨true, some 0, true⟩ 0.02 5 = some
      { in_range := false, enter_time := none, is_stable_grasp := false } ∧
    stableFlag
      { in_range := false, enter_time := none, is_stable_grasp := false }
      = 0 :=
  C2_out_of_range_resets ⟨true, some 0, true⟩ 0.02 5 (Or.inl (by decide!))

/-- C3: an in-band distance hitting a state not in range is a fresh
entry: `enter_time` becomes the call's timestamp, `in_range` becomes
true, `is_stable_grasp` is forced false, and the emitted flag is 0 —
dwell time re-accrues from zero. -/
theorem C3_fresh_entry (s : GraspState) (d now : ℚ)
    (hprev : s.in_range = false)
    (hlo : min_gripper_distance < d) (hhi : d < max_gripper_catch_distance) :
    updateGrasp s d now = some
      { in_range := true, enter_time := some now,
        is_stable_grasp := false } ∧
    stableFlag
      { in_range := true, enter_time := some now, is_stable_grasp := false }
      = 0 := by
  constructor
  · simp [updateGrasp, hlo, hhi, hprev]
  · simp [stableFlag]

/-- Witness for C3: re-entry at distance 0.5 and time 7 from an
out-of-range state records time 7 and reports flag 0. -/
theorem C3_fresh_entry_witness :
    updateGrasp ⟨false, none, false⟩ 0.5 7 = some
      { in_range := true, enter_time := some 7,
        is_stable_grasp := false } ∧
    stableFlag
      { in_range := true, enter_time := some 7, is_stable_grasp := false }
      = 0 :=
  C3_fresh_entry ⟨false, none, false⟩ 0.5 7 rfl (by decide!) (by decide!)

/-- C4: the invariants hold in the initial state and are preserved by
every update call (which, from an invariant state, also never hits the
`None`-arithmetic error path). -/
theorem C4_invariants_preserved :
    graspInv initGraspState ∧
    ∀ (s : GraspState) (d now : ℚ), graspInv s →
      ∃ s1, updateGrasp s d now = some s1 ∧ graspInv s1 := by
  constructor
  · exact ⟨rfl, fun h => h⟩
  · intro s d now hinv
    obtain ⟨ir, et, st⟩ := s
    obtain ⟨h1, h2⟩ := hinv
    by_cases hlo : min_gripper_distance < d
    · by_cases hhi : d < max_gripper_catch_distance
      · cases ir with
        | false =>
          exact ⟨⟨true, some now, false⟩, by simp [updateGrasp, hlo, hhi],
            rfl, fun _ => rfl⟩
        | true =>
          cases et with
          | none => simp at h1
          | some t =>
            simp only [updateGrasp, decide_eq_true hlo, decide_eq_true hhi,
              Bool.and_self, if_true, Bool.not_true, Bool.false_eq_true,
              if_false]
            split
            · exact ⟨⟨true, some t, true⟩, rfl, rfl, fun _ => rfl⟩
            · exact ⟨⟨true, some t, st⟩, rfl, rfl, fun _ => rfl⟩
      · exact ⟨⟨false, none, false⟩, by simp [updateGrasp, hhi],
          rfl, fun h => h⟩
    · exact ⟨⟨false, none, false⟩, by simp [updateGrasp, hlo],
        rfl, fun h => h⟩

/-- Witness for C4: the invariants hold initially and survive an update
at distance 0.5 and time 1 from a mid-run state. -/
theorem C4_invariants_preserved_witness :
    graspInv initGraspState ∧
    ∃ s1, updateGrasp ⟨true, some 0, false⟩ 0.5 1 = some s1 ∧ graspInv s1 :=
  ⟨C4_invariants_preserved.1,
    C4_invariants_preserved.2 ⟨true, some 0, false⟩ 0.5 1 ⟨rfl, fun _ => rfl⟩⟩

/-- C5: a tick whose fetch reports `success = false` emits nothing and
returns the tracker state exactly as it was, so a later successful tick
computes its elapsed dwell time from the original, untouched
`enter_time`. -/
theorem C5_failed_fetch_skips (s : GraspState) (a : ArmData)
    (current_time : ℚ) (tns : ℕ) (h : a.success = false) :
    processTick s a current_time tns = some (s, none) := by
  simp [processTick, h]

/-- Witness for C5: a failed fetch at time 9 leaves a mid-run state,
entered at time 2, untouched and emits no message. -/
theorem C5_failed_fetch_skips_witness :
    processTick ⟨true, some 2, true⟩ ⟨none, none, none, false⟩ 9 17 =
      some (⟨true, some 2, true⟩, none) :=
  C5_failed_fetch_skips ⟨true, some 2, true⟩ ⟨none, none, none, false⟩ 9 17
    rfl

/-- C6: with the band (0.02, 0.7) and stable duration 0.8 s of the
source constants, distances 0.5 fed at times 0, 0.3, 0.9 and 1.5 from
the initial state produce the stable flags 0, 0, 1, 1. -/
theorem C6_reference_scenario :
    runFlags initGraspState [(0.5, 0), (0.5, 0.3), (0.5, 0.9), (0.5, 1.5)] =
      some [0, 0, 1, 1] := by
  decide!

/-- C9: a successful tick emits exactly one message: the channel
`"jointstate"` carrying joint angles, then the pair
`[gripper_distance, stable_flag]`, then the 6-element pose, as one flat
float32 vector tagged with the nanosecond timestamp. -/
theorem C9_output_vector_shape (s : GraspState) (a : ArmData)
    (current_time : ℚ) (tns : ℕ) (js : List ℚ) (d : ℚ) (p : List ℚ)
    (s1 : GraspState)
    (hs : a.success = true) (hj : a.jointstate = some js)
    (hg : a.gripper_raw = some d) (hp : a.pose = some p)
    (hu : updateGrasp s d current_time = some s1) :
    processTick s a current_time tns = some (s1, some
      { channel := "jointstate",
        data := js ++ [d, stableFlag s1] ++ p,
        dtype := DType.float32,
        timestamp_ns := tns }) := by
  simp [processTick, hs, hj, hg, hp, hu]

/-- Witness for C9: a successful tick at distance 0.5, joints
`[1, 2, 3]`, pose `[4, 5, 6, 7, 8, 9]` and timestamp 42 emits the single
concatenated float32 vector. -/
theorem C9_output_vector_shape_witness :
    processTick initGraspState
      ⟨some [1, 2, 3], some 0.5, some [4, 5, 6, 7, 8, 9], true⟩ 3 42 =
      some (⟨true, some 3, false⟩, some
        { channel := "jointstate",
          data := [1, 2, 3] ++ [0.5, stableFlag ⟨true, some 3, false⟩] ++
            [4, 5, 6, 7, 8, 9],
          dtype := DType.float32,
          timestamp_ns := 42 }) :=
  C9_output_vector_shape initGraspState
    ⟨some [1, 2, 3], some 0.5, some [4, 5, 6, 7, 8, 9], true⟩ 3 42
    [1, 2, 3] 0.5 [4, 5, 6, 7, 8, 9] ⟨true, some 3, false⟩
    rfl rfl rfl rfl (by decide!)

/-- A pose fetch that returns a list does so with exactly 6 elements. -/
theorem fetchPose_ok_length (r : HttpResult (List ℚ)) (p : List ℚ)
    (h : fetchPose r = Except.ok (some p)) : p.length = 6 := by
  cases r with
  | exn => simp [fetchPose] at h
  | resp status body =>
    by_cases hst : status = 200
    · cases body with
      | none => simp [fetchPose, hst] at h
      | some q =>
        by_cases h6 : 6 ≤ q.length
        · have hpq : q.take 6 = p := by
            simpa [fetchPose, hst, h6] using h
          rw [← hpq, List.length_take]
          omega
        · simp [fetchPose, hst, h6] at h
    · simp [fetchPose, hst] at h

/-- C10: whenever `get_arm_data` returns normally with `success = true`,
the joint list, the raw gripper distance and the 6-element pose are all
present, so the tracker update and the concatenation
`jointstate + gripper + pose` of a successful tick never see an absent
value. -/
theorem C10_success_implies_fields (env : RemoteEnv) (a : ArmData)
    (h : get_arm_data env = some a) (hs : a.success = true) :
    a.jointstate.isSome = true ∧ a.gripper_raw.isSome = true ∧
    ∃ p, a.pose = some p ∧ p.length = 6 := by
  unfold get_arm_data at h
  split at h
  · injection h with h; subst h; simp at hs
  · exact absurd h (by simp)
  · rename_i js hfj
    split at h
    · injection h with h; subst h; simp at hs
    · exact absurd h (by simp)
    · rename_i g hfg
      split at h
      · injection h with h; subst h; simp at hs
      · exact absurd h (by simp)
      · rename_i p hfp
        split at h
        · rename_i hall
          injection h with h; subst h
          simp only [Bool.and_eq_true] at hall
          obtain ⟨⟨hjs, hgs⟩, hps⟩ := hall
          refine ⟨hjs, hgs, ?_⟩
          obtain ⟨pl, hpl⟩ := Option.isSome_iff_exists.mp hps
          exact ⟨pl, hpl, fetchPose_ok_length env.pose pl (hpl ▸ hfp)⟩
        · injection h with h; subst h; simp at hs

/-- Witness for C10: a fetch in which all three calls return 200 with
their fields present yields `success = true` together with all three
data fields. -/
theorem C10_success_implies_fields_witness :
    (get_arm_data
        { joint := HttpResult.resp 200 (some [1, 2, 3]),
          gripper := HttpResult.resp 200 (some 0.5),
          pose := HttpResult.resp 200 (some [1, 2, 3, 4, 5, 6]) } =
      some { jointstate := some [1, 2, 3], gripper_raw := some 0.5,
             pose := some [1, 2, 3, 4, 5, 6], success := true }) ∧
    (some [1, 2, 3] : Option (List ℚ)).isSome = true ∧
    (some (0.5 : ℚ)).isSome = true ∧
    ∃ p, (some [1, 2, 3, 4, 5, 6] : Option (List ℚ)) = some p ∧
      p.length = 6 :=
  ⟨rfl, C10_success_implies_fields
    { joint := HttpResult.resp 200 (some [1, 2, 3]),
      gripper := HttpResult.resp 200 (some 0.5),
      pose := HttpResult.resp 200 (some [1, 2, 3, 4, 5, 6]) }
    { jointstate := some [1, 2, 3], gripper_raw := some 0.5,
      pose := some [1, 2, 3, 4, 5, 6], success := true } rfl rfl⟩

/-- C7 is refuted at this input: the joint call answers 200 with a JSON
body that lacks the `"q"` key — a transient fetch failure in the claim's
own taxonomy — and `get_arm_data` does not mark the Reading unsuccessful
but raises an uncaught `KeyError` (the `try` block catches only
`RequestException`), modelled by `none`. -/
theorem C7_counterexample_missing_field :
    get_arm_data
      { joint := HttpResult.resp 200 none,
        gripper := HttpResult.resp 200 (some 0.5),
        pose := HttpResult.resp 200 (some [1, 2, 3, 4, 5, 6]) } = none :=
  rfl

/-- An intact field call either raises `RequestException` or returns a
value the code can read without a `KeyError`. -/
theorem fetchField_intact {α : Type} (r : HttpResult α)
    (h : fieldIntact r = true) :
    fetchField r = Except.error PyExc.reqExn ∨
    ∃ o, fetchField r = Except.ok o := by
  cases r with
  | exn => exact Or.inl rfl
  | resp status body =>
    by_cases hst : status = 200
    · cases body with
      | none => simp [fieldIntact, hst] at h
      | some v => exact Or.inr ⟨some v, by simp [fetchField, hst]⟩
    · exact Or.inr ⟨none, by simp [fetchField, hst]⟩

/-- An intact pose call either raises `RequestException` or returns
without a `KeyError` or `IndexError`. -/
theorem fetchPose_intact (r : HttpResult (List ℚ))
    (h : poseIntact r = true) :
    fetchPose r = Except.error PyExc.reqExn ∨
    ∃ o, fetchPose r = Except.ok o := by
  cases r with
  | exn => exact Or.inl rfl
  | resp status body =>
    by_cases hst : status = 200
    · cases body with
      | none => simp [poseIntact, hst] at h
      | some q =>
        have h6 : 6 ≤ q.length := by simpa [poseIntact, hst] using h
        exact Or.inr ⟨some (q.take 6), by simp [fetchPose, hst, h6]⟩
    · exact Or.inr ⟨none, by simp [fetchPose, hst]⟩

/-- A transiently failing field call that returns normally leaves the
field unset. -/
theorem fetchField_transient_none {α : Type} (r : HttpResult α)
    (o : Option α) (hok : fetchField r = Except.ok o)
    (ht : transientFail r = true) : o = none := by
  cases r with
  | exn => simp [fetchField] at hok
  | resp status body =>
    have hst : ¬ status = 200 := by simpa [transientFail] using ht
    simpa [fetchField, hst] using hok.symm

/-- A transiently failing pose call that returns normally leaves the
pose unset. -/
theorem fetchPose_transient_none (r : HttpResult (List ℚ))
    (o : Option (List ℚ)) (hok : fetchPose r = Except.ok o)
    (ht : transientFail r = true) : o = none := by
  cases r with
  | exn => simp [fetchPose] at hok
  | resp status body =>
    have hst : ¬ status = 200 := by simpa [transientFail] using ht
    simpa [fetchPose, hst] using hok.symm

/-- C7 amended: a timeout, connection error or non-200 status on any of
the three remote calls yields a Reading marked `success = false` without
the failure escaping `get_arm_data` — provided no call answers 200 with
its JSON field missing (and the pose, when present, has ≥ 6 entries),
since such an answer raises an uncaught `KeyError`/`IndexError` instead. -/
theorem C7_amended_transient_no_crash (env : RemoteEnv)
    (hj : fieldIntact env.joint = true)
    (hg : fieldIntact env.gripper = true)
    (hp : poseIntact env.pose = true)
    (hfail : (transientFail env.joint || transientFail env.gripper ||
      transientFail env.pose) = true) :
    (get_arm_data env).map ArmData.success = some false := by
  rcases fetchField_intact env.joint hj with hfj | ⟨oj, hfj⟩
  · simp [get_arm_data, hfj]
  · rcases fetchField_intact env.gripper hg with hfg | ⟨og, hfg⟩
    · simp [get_arm_data, hfj, hfg]
    · rcases fetchPose_intact env.pose hp with hfp | ⟨op, hfp⟩
      · simp [get_arm_data, hfj, hfg, hfp]
      · have hcond : (oj.isSome && og.isSome && op.isSome) = false := by
          rcases Bool.or_eq_true_iff.mp hfail with hor | ht
          · rcases Bool.or_eq_true_iff.mp hor with ht | ht
            · rw [fetchField_transient_none env.joint oj hfj ht]
              simp
            · rw [fetchField_transient_none env.gripper og hfg ht]
              simp
          · rw [fetchPose_transient_none env.pose op hfp ht]
            simp
        simp [get_arm_data, hfj, hfg, hfp, hcond]

/-- Witness for C7's amended claim: the gripper call times out while the
other two calls answer 200 with their fields; the Reading comes back
with `success = false` and nothing escapes. -/
theorem C7_amended_transient_no_crash_witness :
    (get_arm_data
        { joint := HttpResult.resp 200 (some [1, 2, 3]),
          gripper := HttpResult.exn,
          pose := HttpResult.resp 200 (some [1, 2, 3, 4, 5, 6]) }).map
      ArmData.success = some false :=
  C7_amended_transient_no_crash
    { joint := HttpResult.resp 200 (some [1, 2, 3]),
      gripper := HttpResult.exn,
      pose := HttpResult.resp 200 (some [1, 2, 3, 4, 5, 6]) }
    rfl rfl rfl rfl

/-- C8 is contradicted by the code: the `stop` branch of the event loop
only prints and does not leave the loop, so a tick arriving after a stop
event is still processed and still emits an output.  Here a stop event
followed by one successful tick produces one emitted message. -/
theorem C8_tick_after_stop_emits :
    mainLoop initGraspState
      [Event.stop,
       Event.tick
         { joint := HttpResult.resp 200 (some [1, 2, 3, 4, 5, 6, 7]),
           gripper := HttpResult.resp 200 (some 0.5),
           pose := HttpResult.resp 200 (some [1, 2, 3, 4, 5, 6]) } 0.1 9] =
      some (⟨true, some 0.1, false⟩,
        [{ channel := "jointstate",
           data := [1, 2, 3, 4, 5, 6, 7] ++ [0.5, 0] ++ [1, 2, 3, 4, 5, 6],
           dtype := DType.float32, timestamp_ns := 9 }]) := by
  decide!

end DoraArmFranka
